import Mathlib

/-!
Verification of the entity-metadata extraction core of a campaign-finance
disclosure scraper (file `ut_disclosures.py`).

The embedding models the pure extraction logic of
`EntityMetadata.process_page` together with the `Person` and `Entity`
dataclasses.  The parsed HTML document is abstracted to a heading string
(the `h1` text), plus a list of fieldsets, each carrying a legend string
and a list of `(label text, tail text)` pairs - exactly the pieces of the
DOM that `process_page` reads.

Python-specific behaviours modelled explicitly:
  * `dict` insertion keeps the first position of a key and overwrites its
    value (`dictInsert`);
  * `Person(**data)` raises `TypeError` when a keyword is not a declared
    `Person` field or when the required `first` argument is missing; the
    surrounding `except` catches this, so `mkPerson` returns `none`;
  * `setattr(entity, k, v)` assigns a declared attribute when `k` names
    one, and otherwise creates a dynamic attribute - modelled by the
    `extra` association list on `Entity`;
  * `self.type_mapping[h1]` raises `KeyError` outside of any `try`, so an
    unknown heading aborts the page with no Entity (`extract` = `none`);
  * per-fieldset failures (`raise ValueError("unknown legend ...")`,
    `Person` construction errors) are caught by the inner `except`,
    printed, and the loop continues; the prints are modelled as `Report`
    values accumulated alongside the entity.
-/

set_option autoImplicit false

namespace UtDisclosures

/-- One natural person associated with an entity: the `Person` dataclass.
In the source, `first` is a required constructor argument (it has no
default), while every other field defaults to the empty string. -/
structure Person where
  first : String
  middle : String := ""
  last : String := ""
  suffix : String := ""
  title : String := ""
  address1 : String := ""
  address2 : String := ""
  city : String := ""
  state : String := ""
  zipcode : String := ""
  phone : String := ""
  email : String := ""
  occupation : String := ""
  office : String := ""
  district_number : String := ""
  party : String := ""
deriving Repr, DecidableEq

/-- One registered filer: the `Entity` dataclass.  The `extra` association
list models attributes created dynamically by `setattr` for canonical
field names that the dataclass does not declare (Python objects accept
`setattr` with any name). -/
structure Entity where
  folder_id : String
  entity_id : String
  source : String
  type : String := ""
  name : String := ""
  phone : String := ""
  address1 : String := ""
  address2 : String := ""
  city : String := ""
  state : String := ""
  zipcode : String := ""
  aka : String := ""
  date_created : String := ""
  ballot_proposition : String := ""
  ballot_position : String := ""
  affiliated_organization : String := ""
  associated_people : List Person := []
  extra : List (String × String) := []
deriving Repr, DecidableEq

/-- The attribute names declared by the `Entity` dataclass (its field
list, lines 39-57 of the source). -/
def entityDeclaredFields : List String :=
  ["folder_id", "entity_id", "source", "type", "name", "phone", "address1",
   "address2", "city", "state", "zipcode", "aka", "date_created",
   "ballot_proposition", "ballot_position", "affiliated_organization",
   "associated_people"]

/-- The keyword parameters accepted by the `Person` dataclass constructor. -/
def PERSON_FIELDS : List String :=
  ["first", "middle", "last", "suffix", "title", "address1", "address2",
   "city", "state", "zipcode", "phone", "email", "occupation", "office",
   "district_number", "party"]

/-- First-match lookup in an association list, mirroring `d[k]` /
`k in d` on a Python dict built by `dictInsert`. -/
def dictFind (d : List (String × String)) (k : String) : Option String :=
  match d with
  | [] => none
  | (k0, v0) :: rest => if k0 = k then some v0 else dictFind rest k

/-- Python dict assignment `d[k] = v`: overwrite in place when the key is
present, append otherwise. -/
def dictInsert (d : List (String × String)) (k v : String) : List (String × String) :=
  match d with
  | [] => [(k, v)]
  | (k0, v0) :: rest =>
      if k0 = k then (k0, v) :: rest else (k0, v0) :: dictInsert rest k v

/-- Lookup with empty-string default, as used for the optional keyword
arguments of `Person`. -/
def dictFindD (d : List (String × String)) (k : String) : String :=
  (dictFind d k).getD ""

/-- The `ENTITY_DATA_MAPPING` table: raw regulator label to canonical
field name. -/
def ENTITY_DATA_MAPPING : List (String × String) :=
  [("Name of Corporation", "name"),
   ("Name", "name"),
   ("Name of Political Party", "name"),
   ("County", "county"),
   ("Telephone Number", "phone"),
   ("Street Address", "address1"),
   ("Suite/PO Box", "address2"),
   ("City", "city"),
   ("State", "state"),
   ("Zip", "zipcode"),
   ("Also known as", "aka"),
   ("Date Created", "date_created"),
   ("First", "first"),
   ("Middle", "middle"),
   ("Last", "last"),
   ("Suffix", "suffix"),
   ("Title", "title"),
   ("Email", "email"),
   ("Occupation", "occupation"),
   ("Business Address", "address1"),
   ("Ballot Proposition", "ballot_proposition"),
   ("Ballot Position", "ballot_position"),
   ("Name of organization, individual, corporation, association, unit of government, or union that the PIC Represents", "first"),
   ("Name of organization, individual, corporation, association, unit of government, or union that the PAC Represents", "first"),
   ("Name of organization affiliated with the PAC", "first"),
   ("Name of organization affiliated with the PIC", "first"),
   ("Office", "office"),
   ("Party", "party"),
   ("District #", "district_number"),
   ("County of Election", "county"),
   ("Organization", "affiliated_organization"),
   ("Elected or appointed position that the lobbyist holds in state or local government (if any)", "office"),
   ("CreateDate", "date_created"),
   ("Types of expenditures for which the lobbyist will be reimbursed", "reimbursement_types"),
   ("Principal\x27s Name", "principal_name"),
   ("General Purposes, Interests, and Nature of the Principal", "principal_interests")]

/-- The `type_mapping` table from page heading to canonical entity type
(the misspelling "Commitee" is in the source). -/
def type_mapping : List (String × String) :=
  [("Political Issues Commitee Statement of Organization", "Political Issues Committee"),
   ("Financial Disclosures Registration for Corporation", "Corporation"),
   ("Political Action Committee Statement of Organization", "Political Action Committee"),
   ("Candidates & Office Holders Statement of Organization", "Candidates & Office Holders"),
   ("Financial Disclosures Registration for Political Party", "Political Party"),
   ("Financial Disclosures Registration for Independent Expenditures", "Independent Expenditures"),
   ("Financial Disclosures Registration for Electioneering", "Electioneering"),
   ("Financial Disclosures Registration for Lobbyist", "Lobbyist")]

/-- The closed set of entity-level legend strings from the membership test
in `process_page`. -/
def ENTITY_LEVEL_LEGENDS : List String :=
  ["Corporate Information",
   "PAC Information",
   "PIC Information",
   "Party Information",
   "Candidate Information",
   "Independent Expenditures Information",
   "Electioneer Information",
   "Lobbyist Information",
   "Business Information",
   "Payment Information",
   "Principals (Clients) for Which the Lobbyist Works or is Hired as an Independent Contractor"]

/-- Whitespace characters removed by `str.strip()` (space, tab, newline,
carriage return cover the regulator pages). -/
def isSpaceChar (c : Char) : Bool :=
  c = ' ' || c = '\t' || c = '\n' || c = '\r'

/-- Python `s.strip()`: remove leading and trailing whitespace. -/
def pyStrip (s : String) : String :=
  String.mk (((s.data.dropWhile isSpaceChar).reverse.dropWhile isSpaceChar).reverse)

/-- Python `s.startswith(p)`. -/
def pyStartswith (s p : String) : Bool :=
  p.data.isPrefixOf s.data

/-- Python `s.split(sep)` on the character list, for a one-character
separator (the source only splits on "/"). -/
def splitChar (c : Char) (l : List Char) : List (List Char) :=
  match l with
  | [] => [[]]
  | x :: xs =>
      let r := splitChar c xs
      if x = c then [] :: r
      else
        match r with
        | [] => [[x]]
        | h :: t => (x :: h) :: t

/-- The expression `url.split("/")[-1]`: the last slash-separated
component of the url (`split` always yields a nonempty list). -/
def lastUrlPart (url : String) : String :=
  String.mk ((splitChar '/' url.data).getLastD [])

/-- Classification of a section legend, following the `if` / `elif` /
`else` chain in `process_page`. -/
inductive Legend where
  | entityLevel : Legend
  | personLevel : Legend
  | unknown : Legend
deriving Repr, DecidableEq

/-- The legend classifier: exact membership in the entity-level set is
tested first; the two personal prefixes only when that fails; everything
else is unknown. -/
def classify (legend : String) : Legend :=
  if ENTITY_LEVEL_LEGENDS.contains legend then Legend.entityLevel
  else if pyStartswith legend "Information about" ||
          pyStartswith legend "Personal Campaign Committee" then Legend.personLevel
  else Legend.unknown

/-- Diagnostics emitted while a page is processed: the unmapped-label
print, the caught `ValueError` for an unknown legend, and a caught
`Person` construction error. -/
inductive Report where
  | unmappedLabel : Report
  | unknownLegend (legend : String) : Report
  | personError : Report
deriving Repr, DecidableEq

/-- One `div.fieldset` of the page: its legend text (already holding the
raw text; `process_page` strips it) and the `(label text, tail text)`
pairs of its `div.dis-cell label` elements. -/
structure Fieldset where
  legend : String
  items : List (String × String)
deriving Repr, DecidableEq

/-- The parts of the parsed detail page that `process_page` reads: the
`h1` text and the fieldsets in document order. -/
structure Document where
  h1 : String
  sections : List Fieldset
deriving Repr, DecidableEq

/-- One step of the data-collection loop over the labels of a fieldset: an
unmapped label is reported and dropped; a mapped one stores the stripped
tail under the canonical field name in the section dict. -/
def collectStep (acc : List (String × String) × List Report) (item : String × String) :
    List (String × String) × List Report :=
  match dictFind ENTITY_DATA_MAPPING item.1 with
  | none => (acc.1, acc.2 ++ [Report.unmappedLabel])
  | some f => (dictInsert acc.1 f (pyStrip item.2), acc.2)

/-- The data-collection loop of `process_page` for one fieldset, from a
given accumulator. -/
def collectFrom (acc : List (String × String) × List Report)
    (items : List (String × String)) : List (String × String) × List Report :=
  items.foldl collectStep acc

/-- Collect the `(canonical field, value)` dict of one fieldset together with
the unmapped-label reports, starting from the empty dict. -/
def collectData (items : List (String × String)) : List (String × String) × List Report :=
  collectFrom ([], []) items

/-- The record built by a successful `Person(**data)` call: each keyword
present in the dict supplies the field, each absent one takes its
empty-string default. -/
def personFromData (data : List (String × String)) : Person :=
  { first := dictFindD data "first"
    middle := dictFindD data "middle"
    last := dictFindD data "last"
    suffix := dictFindD data "suffix"
    title := dictFindD data "title"
    address1 := dictFindD data "address1"
    address2 := dictFindD data "address2"
    city := dictFindD data "city"
    state := dictFindD data "state"
    zipcode := dictFindD data "zipcode"
    phone := dictFindD data "phone"
    email := dictFindD data "email"
    occupation := dictFindD data "occupation"
    office := dictFindD data "office"
    district_number := dictFindD data "district_number"
    party := dictFindD data "party" }

/-- The `Person(**data)` call: fails (TypeError, caught by the inner
`except`) when some key is not a `Person` field or the required `first`
key is absent; otherwise every absent field takes its empty-string
default. -/
def mkPerson (data : List (String × String)) : Option Person :=
  if (data.all fun p => PERSON_FIELDS.contains p.1) &&
     (data.any fun p => p.1 == "first") then
    some (personFromData data)
  else none

/-- The `setattr(entity, k, v)` call for a string value: a declared
string attribute when `k` names one, a dynamic attribute otherwise.
No canonical field name in `ENTITY_DATA_MAPPING` is `associated_people`,
so the list-valued attribute is never the target. -/
def Entity.setattr (e : Entity) (k v : String) : Entity :=
  if k = "folder_id" then { e with folder_id := v }
  else if k = "entity_id" then { e with entity_id := v }
  else if k = "source" then { e with source := v }
  else if k = "type" then { e with type := v }
  else if k = "name" then { e with name := v }
  else if k = "phone" then { e with phone := v }
  else if k = "address1" then { e with address1 := v }
  else if k = "address2" then { e with address2 := v }
  else if k = "city" then { e with city := v }
  else if k = "state" then { e with state := v }
  else if k = "zipcode" then { e with zipcode := v }
  else if k = "aka" then { e with aka := v }
  else if k = "date_created" then { e with date_created := v }
  else if k = "ballot_proposition" then { e with ballot_proposition := v }
  else if k = "ballot_position" then { e with ballot_position := v }
  else if k = "affiliated_organization" then { e with affiliated_organization := v }
  else { e with extra := dictInsert e.extra k v }

/-- The `getattr(entity, k)` read for string-valued attributes, the
inverse view of `Entity.setattr`. -/
def Entity.getattr (e : Entity) (k : String) : Option String :=
  if k = "folder_id" then some e.folder_id
  else if k = "entity_id" then some e.entity_id
  else if k = "source" then some e.source
  else if k = "type" then some e.type
  else if k = "name" then some e.name
  else if k = "phone" then some e.phone
  else if k = "address1" then some e.address1
  else if k = "address2" then some e.address2
  else if k = "city" then some e.city
  else if k = "state" then some e.state
  else if k = "zipcode" then some e.zipcode
  else if k = "aka" then some e.aka
  else if k = "date_created" then some e.date_created
  else if k = "ballot_proposition" then some e.ballot_proposition
  else if k = "ballot_position" then some e.ballot_position
  else if k = "affiliated_organization" then some e.affiliated_organization
  else dictFind e.extra k

/-- Apply the dict of an entity-level section to the entity:
`for k, v in data.items(): setattr(entity, k, v)`. -/
def applyData (e : Entity) (data : List (String × String)) : Entity :=
  data.foldl (fun acc p => acc.setattr p.1 p.2) e

/-- Process one fieldset: collect its dict, strip and classify the
legend, then either assign entity attributes, append a freshly built
Person, or report the unknown legend and drop the data of the section.
All exceptions of the branch are caught per fieldset, so processing
always continues with the next fieldset. -/
def processSection (e : Entity) (s : Fieldset) : Entity × List Report :=
  let c := collectData s.items
  let legend := pyStrip s.legend
  match classify legend with
  | Legend.entityLevel => (applyData e c.1, c.2)
  | Legend.personLevel =>
      match mkPerson c.1 with
      | some p => ({ e with associated_people := e.associated_people ++ [p] }, c.2)
      | none => (e, c.2 ++ [Report.personError])
  | Legend.unknown => (e, c.2 ++ [Report.unknownLegend legend])

/-- The entity shell built at the top of `process_page`: folder id from
`self.input`, source from `self.source.url`, and entity id as the last
`/`-separated component of the source url. -/
def initialEntity (input url : String) : Entity :=
  { folder_id := input
    entity_id := lastUrlPart url
    source := url }

/-- The Persons a single fieldset contributes: one, when its legend
classifies as person-level and the `Person` construction succeeds, and
none otherwise. -/
def sectionPersons (s : Fieldset) : List Person :=
  match classify (pyStrip s.legend) with
  | Legend.personLevel => (mkPerson (collectData s.items).1).toList
  | _ => []

/-- One iteration of the fieldset loop: process the next fieldset against
the entity built so far and append its reports. -/
def stepFold (acc : Entity × List Report) (s : Fieldset) : Entity × List Report :=
  let step := processSection acc.1 s
  (step.1, acc.2 ++ step.2)

/-- The whole of `process_page`: resolve the entity type from the `h1`
heading (an unknown heading raises `KeyError` outside every `try`, so the
page yields no Entity), then fold over the fieldsets in document order,
accumulating the entity and the per-section reports. -/
def extract (input url : String) (doc : Document) : Option Entity × List Report :=
  match dictFind type_mapping doc.h1 with
  | none => (none, [])
  | some ty =>
      let e1 := { initialEntity input url with type := ty }
      let r := doc.sections.foldl stepFold (e1, ([] : List Report))
      (some r.1, r.2)

/-! Concrete pages used to evaluate the model on explicit inputs.  All of
them follow the regulator page shapes described by the tables above. -/

/-- A page whose person section lacks a "First" label. -/
def docMissingFirst : Document :=
  { h1 := "Political Action Committee Statement of Organization"
    sections := [⟨"Information about Treasurer", [("Last", "Doe")]⟩] }

/-- A person section carrying both a first and a last name. -/
def secTreasurer : Fieldset :=
  ⟨"Information about Treasurer", [("First", "Jane"), ("Last", "Doe")]⟩

/-- A fresh entity shell for section-level checks. -/
def entBase : Entity := initialEntity "1" "https://x/9"

/-- A well-formed entity-level section. -/
def secGood : Fieldset := ⟨"PAC Information", [("Name", "Acme PAC")]⟩

/-- A section with an unrecognized legend. -/
def secBad : Fieldset := ⟨"Misc Notes", [("Foo", "bar")]⟩

/-- An entity-level section whose two labels map to the same canonical
field `name`. -/
def secCorpTwice : Fieldset :=
  ⟨"Corporate Information", [("Name", "A0"), ("Name of Corporation", "B")]⟩

/-- An entity that already carries a `name` value. -/
def entNamed : Entity := { initialEntity "1" "https://x/9" with name := "A" }

/-- A page with a single person-level section lacking "First". -/
def docPersonNoFirst : Document :=
  { h1 := "Political Action Committee Statement of Organization"
    sections := [⟨"Personal Campaign Committee Members", [("Email", "a@b.c")]⟩] }

/-- A page with three person-level sections in document order. -/
def docThreePersons : Document :=
  { h1 := "Political Action Committee Statement of Organization"
    sections :=
      [⟨"Information about Treasurer", [("First", "A")]⟩,
       ⟨"Information about Chair", [("First", "B")]⟩,
       ⟨"Information about Agent", [("First", "C")]⟩] }

/-- The entity extracted from `docThreePersons`. -/
def entThreePersons : Entity :=
  { folder_id := "1"
    entity_id := "2"
    source := "https://x/2"
    type := "Political Action Committee"
    associated_people := [{ first := "A" }, { first := "B" }, { first := "C" }] }

/-- A corporation page with one entity-level section. -/
def docCorp : Document :=
  { h1 := "Financial Disclosures Registration for Corporation"
    sections := [⟨"Corporate Information", [("Name", "Acme Corp")]⟩] }

/-- The entity extracted from `docCorp`. -/
def entCorp : Entity :=
  { folder_id := "55"
    entity_id := "77"
    source := "https://x/77"
    type := "Corporation"
    name := "Acme Corp" }

end UtDisclosures

namespace UtDisclosures

theorem dictFind_dictInsert_self (d : List (String × String)) (k v : String) :
    dictFind (dictInsert d k v) k = some v := by
  induction d with
  | nil => simp [dictInsert, dictFind]
  | cons p rest ih =>
      obtain ⟨k0, v0⟩ := p
      by_cases h : k0 = k
      · subst h; simp [dictInsert, dictFind]
      · simp [dictInsert, dictFind, h, ih]

theorem dictFind_dictInsert_ne (d : List (String × String)) (k k' v : String)
    (h : k' ≠ k) : dictFind (dictInsert d k v) k' = dictFind d k' := by
  induction d with
  | nil => simp [dictInsert, dictFind, Ne.symm h]
  | cons p rest ih =>
      obtain ⟨k0, v0⟩ := p
      by_cases hk : k0 = k
      · subst hk; simp [dictInsert, dictFind, Ne.symm h]
      · simp [dictInsert, dictFind, hk, ih]

theorem mem_dictInsert_pair (d : List (String × String)) (k v : String)
    (p : String × String) (hp : p ∈ dictInsert d k v) : p = (k, v) ∨ p ∈ d := by
  induction d with
  | nil =>
      simp only [dictInsert] at hp
      exact Or.inl (List.mem_singleton.mp hp)
  | cons q rest ih =>
      obtain ⟨k0, v0⟩ := q
      simp only [dictInsert] at hp
      by_cases h : k0 = k
      · rw [if_pos h] at hp
        rcases List.mem_cons.mp hp with h1 | h2
        · subst h; exact Or.inl h1
        · exact Or.inr (List.mem_cons_of_mem _ h2)
      · rw [if_neg h] at hp
        rcases List.mem_cons.mp hp with h1 | h2
        · exact Or.inr (h1 ▸ List.mem_cons_self _ _)
        · rcases ih h2 with hl | hr
          · exact Or.inl hl
          · exact Or.inr (List.mem_cons_of_mem _ hr)

theorem mem_keys_dictInsert (d : List (String × String)) (k v a : String)
    (ha : a ∈ (dictInsert d k v).map Prod.fst) : a = k ∨ a ∈ d.map Prod.fst := by
  rcases List.mem_map.mp ha with ⟨p, hp, hpa⟩
  rcases mem_dictInsert_pair d k v p hp with h1 | h2
  · subst h1; exact Or.inl hpa.symm
  · exact Or.inr (List.mem_map.mpr ⟨p, h2, hpa⟩)

theorem keys_nodup_dictInsert (d : List (String × String)) (k v : String)
    (hnd : (d.map Prod.fst).Nodup) : ((dictInsert d k v).map Prod.fst).Nodup := by
  induction d with
  | nil => simp [dictInsert]
  | cons q rest ih =>
      obtain ⟨k0, v0⟩ := q
      rw [List.map_cons, List.nodup_cons] at hnd
      simp only [dictInsert]
      by_cases h : k0 = k
      · rw [if_pos h, List.map_cons, List.nodup_cons]
        exact ⟨hnd.1, hnd.2⟩
      · rw [if_neg h, List.map_cons, List.nodup_cons]
        refine ⟨fun hc => ?_, ih hnd.2⟩
        rcases mem_keys_dictInsert rest k v k0 hc with h1 | h2
        · exact h h1
        · exact hnd.1 h2

theorem dictFind_mem_values (d : List (String × String)) (l f : String)
    (h : dictFind d l = some f) : f ∈ d.map Prod.snd := by
  induction d with
  | nil => simp [dictFind] at h
  | cons q rest ih =>
      obtain ⟨k0, v0⟩ := q
      simp only [dictFind] at h
      by_cases hk : k0 = l
      · rw [if_pos hk] at h
        have hf := Option.some.inj h
        subst hf
        exact List.mem_cons_self _ _
      · rw [if_neg hk] at h
        rw [List.map_cons]
        exact List.mem_cons_of_mem _ (ih h)

end UtDisclosures

namespace UtDisclosures

theorem getattr_setattr_self (e : Entity) (k v : String) :
    (e.setattr k v).getattr k = some v := by
  by_cases h1 : k = "folder_id"
  · subst h1; rfl
  by_cases h2 : k = "entity_id"
  · subst h2; rfl
  by_cases h3 : k = "source"
  · subst h3; rfl
  by_cases h4 : k = "type"
  · subst h4; rfl
  by_cases h5 : k = "name"
  · subst h5; rfl
  by_cases h6 : k = "phone"
  · subst h6; rfl
  by_cases h7 : k = "address1"
  · subst h7; rfl
  by_cases h8 : k = "address2"
  · subst h8; rfl
  by_cases h9 : k = "city"
  · subst h9; rfl
  by_cases h10 : k = "state"
  · subst h10; rfl
  by_cases h11 : k = "zipcode"
  · subst h11; rfl
  by_cases h12 : k = "aka"
  · subst h12; rfl
  by_cases h13 : k = "date_created"
  · subst h13; rfl
  by_cases h14 : k = "ballot_proposition"
  · subst h14; rfl
  by_cases h15 : k = "ballot_position"
  · subst h15; rfl
  by_cases h16 : k = "affiliated_organization"
  · subst h16; rfl
  unfold Entity.setattr
  rw [if_neg h1, if_neg h2, if_neg h3, if_neg h4, if_neg h5, if_neg h6, if_neg h7, if_neg h8, if_neg h9, if_neg h10, if_neg h11, if_neg h12, if_neg h13, if_neg h14, if_neg h15, if_neg h16]
  unfold Entity.getattr
  rw [if_neg h1, if_neg h2, if_neg h3, if_neg h4, if_neg h5, if_neg h6, if_neg h7, if_neg h8, if_neg h9, if_neg h10, if_neg h11, if_neg h12, if_neg h13, if_neg h14, if_neg h15, if_neg h16]
  exact dictFind_dictInsert_self e.extra k v

theorem getattr_setattr_ne (e : Entity) (k k' v : String) (h : k' ≠ k) :
    (e.setattr k' v).getattr k = e.getattr k := by
  by_cases h1 : k' = "folder_id"
  · subst h1; simp [Entity.setattr, Entity.getattr, Ne.symm h]
  by_cases h2 : k' = "entity_id"
  · subst h2; simp [Entity.setattr, Entity.getattr, Ne.symm h]
  by_cases h3 : k' = "source"
  · subst h3; simp [Entity.setattr, Entity.getattr, Ne.symm h]
  by_cases h4 : k' = "type"
  · subst h4; simp [Entity.setattr, Entity.getattr, Ne.symm h]
  by_cases h5 : k' = "name"
  · subst h5; simp [Entity.setattr, Entity.getattr, Ne.symm h]
  by_cases h6 : k' = "phone"
  · subst h6; simp [Entity.setattr, Entity.getattr, Ne.symm h]
  by_cases h7 : k' = "address1"
  · subst h7; simp [Entity.setattr, Entity.getattr, Ne.symm h]
  by_cases h8 : k' = "address2"
  · subst h8; simp [Entity.setattr, Entity.getattr, Ne.symm h]
  by_cases h9 : k' = "city"
  · subst h9; simp [Entity.setattr, Entity.getattr, Ne.symm h]
  by_cases h10 : k' = "state"
  · subst h10; simp [Entity.setattr, Entity.getattr, Ne.symm h]
  by_cases h11 : k' = "zipcode"
  · subst h11; simp [Entity.setattr, Entity.getattr, Ne.symm h]
  by_cases h12 : k' = "aka"
  · subst h12; simp [Entity.setattr, Entity.getattr, Ne.symm h]
  by_cases h13 : k' = "date_created"
  · subst h13; simp [Entity.setattr, Entity.getattr, Ne.symm h]
  by_cases h14 : k' = "ballot_proposition"
  · subst h14; simp [Entity.setattr, Entity.getattr, Ne.symm h]
  by_cases h15 : k' = "ballot_position"
  · subst h15; simp [Entity.setattr, Entity.getattr, Ne.symm h]
  by_cases h16 : k' = "affiliated_organization"
  · subst h16; simp [Entity.setattr, Entity.getattr, Ne.symm h]
  unfold Entity.setattr
  rw [if_neg h1, if_neg h2, if_neg h3, if_neg h4, if_neg h5, if_neg h6, if_neg h7, if_neg h8, if_neg h9, if_neg h10, if_neg h11, if_neg h12, if_neg h13, if_neg h14, if_neg h15, if_neg h16]
  unfold Entity.getattr
  simp [dictFind_dictInsert_ne e.extra k' k v (Ne.symm h)]

theorem setattr_associated_people (e : Entity) (k v : String) :
    (e.setattr k v).associated_people = e.associated_people := by
  by_cases h1 : k = "folder_id"
  · subst h1; rfl
  by_cases h2 : k = "entity_id"
  · subst h2; rfl
  by_cases h3 : k = "source"
  · subst h3; rfl
  by_cases h4 : k = "type"
  · subst h4; rfl
  by_cases h5 : k = "name"
  · subst h5; rfl
  by_cases h6 : k = "phone"
  · subst h6; rfl
  by_cases h7 : k = "address1"
  · subst h7; rfl
  by_cases h8 : k = "address2"
  · subst h8; rfl
  by_cases h9 : k = "city"
  · subst h9; rfl
  by_cases h10 : k = "state"
  · subst h10; rfl
  by_cases h11 : k = "zipcode"
  · subst h11; rfl
  by_cases h12 : k = "aka"
  · subst h12; rfl
  by_cases h13 : k = "date_created"
  · subst h13; rfl
  by_cases h14 : k = "ballot_proposition"
  · subst h14; rfl
  by_cases h15 : k = "ballot_position"
  · subst h15; rfl
  by_cases h16 : k = "affiliated_organization"
  · subst h16; rfl
  unfold Entity.setattr
  rw [if_neg h1, if_neg h2, if_neg h3, if_neg h4, if_neg h5, if_neg h6, if_neg h7, if_neg h8, if_neg h9, if_neg h10, if_neg h11, if_neg h12, if_neg h13, if_neg h14, if_neg h15, if_neg h16]

theorem setattr_preserves_ids (e : Entity) (k v : String)
    (hf : k ≠ "folder_id") (he : k ≠ "entity_id") (hs : k ≠ "source") (ht : k ≠ "type") :
    (e.setattr k v).folder_id = e.folder_id ∧ (e.setattr k v).entity_id = e.entity_id ∧
    (e.setattr k v).source = e.source ∧ (e.setattr k v).type = e.type := by
  by_cases h1 : k = "name"
  · subst h1; exact ⟨rfl, rfl, rfl, rfl⟩
  by_cases h2 : k = "phone"
  · subst h2; exact ⟨rfl, rfl, rfl, rfl⟩
  by_cases h3 : k = "address1"
  · subst h3; exact ⟨rfl, rfl, rfl, rfl⟩
  by_cases h4 : k = "address2"
  · subst h4; exact ⟨rfl, rfl, rfl, rfl⟩
  by_cases h5 : k = "city"
  · subst h5; exact ⟨rfl, rfl, rfl, rfl⟩
  by_cases h6 : k = "state"
  · subst h6; exact ⟨rfl, rfl, rfl, rfl⟩
  by_cases h7 : k = "zipcode"
  · subst h7; exact ⟨rfl, rfl, rfl, rfl⟩
  by_cases h8 : k = "aka"
  · subst h8; exact ⟨rfl, rfl, rfl, rfl⟩
  by_cases h9 : k = "date_created"
  · subst h9; exact ⟨rfl, rfl, rfl, rfl⟩
  by_cases h10 : k = "ballot_proposition"
  · subst h10; exact ⟨rfl, rfl, rfl, rfl⟩
  by_cases h11 : k = "ballot_position"
  · subst h11; exact ⟨rfl, rfl, rfl, rfl⟩
  by_cases h12 : k = "affiliated_organization"
  · subst h12; exact ⟨rfl, rfl, rfl, rfl⟩
  unfold Entity.setattr
  rw [if_neg hf, if_neg he, if_neg hs, if_neg ht, if_neg h1, if_neg h2, if_neg h3, if_neg h4, if_neg h5, if_neg h6, if_neg h7, if_neg h8, if_neg h9, if_neg h10, if_neg h11, if_neg h12]
  exact ⟨rfl, rfl, rfl, rfl⟩

end UtDisclosures
namespace UtDisclosures

theorem applyData_cons (e : Entity) (p : String × String) (rest : List (String × String)) :
    applyData e (p :: rest) = applyData (e.setattr p.1 p.2) rest := rfl

theorem applyData_associated_people (data : List (String × String)) :
    ∀ e : Entity, (applyData e data).associated_people = e.associated_people := by
  induction data with
  | nil => intro e; rfl
  | cons p rest ih =>
      intro e
      rw [applyData_cons, ih, setattr_associated_people]

theorem applyData_preserves_ids (data : List (String × String)) :
    ∀ e : Entity,
    (∀ p ∈ data, p.1 ≠ "folder_id" ∧ p.1 ≠ "entity_id" ∧ p.1 ≠ "source" ∧ p.1 ≠ "type") →
    (applyData e data).folder_id = e.folder_id ∧ (applyData e data).entity_id = e.entity_id ∧
    (applyData e data).source = e.source ∧ (applyData e data).type = e.type := by
  induction data with
  | nil => intro e _; exact ⟨rfl, rfl, rfl, rfl⟩
  | cons p rest ih =>
      intro e h
      obtain ⟨hf, he, hs, ht⟩ := h p (List.mem_cons_self _ _)
      have hrest := ih (e.setattr p.1 p.2) (fun q hq => h q (List.mem_cons_of_mem _ hq))
      have hone := setattr_preserves_ids e p.1 p.2 hf he hs ht
      rw [applyData_cons]
      exact ⟨hrest.1.trans hone.1, hrest.2.1.trans hone.2.1,
        hrest.2.2.1.trans hone.2.2.1, hrest.2.2.2.trans hone.2.2.2⟩

theorem applyData_getattr_not_key (data : List (String × String)) :
    ∀ (e : Entity) (k : String), k ∉ data.map Prod.fst →
    (applyData e data).getattr k = e.getattr k := by
  induction data with
  | nil => intro e k _; rfl
  | cons p rest ih =>
      intro e k hk
      rw [List.map_cons, List.mem_cons, not_or] at hk
      rw [applyData_cons, ih _ k hk.2,
        getattr_setattr_ne e k p.1 p.2 (fun hh => hk.1 hh.symm)]

theorem applyData_getattr_mem (data : List (String × String)) :
    ∀ (e : Entity) (k v : String), (data.map Prod.fst).Nodup → (k, v) ∈ data →
    (applyData e data).getattr k = some v := by
  induction data with
  | nil => intro e k v _ hm; cases hm
  | cons p rest ih =>
      intro e k v hnd hm
      rw [List.map_cons, List.nodup_cons] at hnd
      rcases List.mem_cons.mp hm with heq | hmem
      · have hp : p = (k, v) := heq.symm
        subst hp
        rw [applyData_cons, applyData_getattr_not_key rest _ k hnd.1]
        exact getattr_setattr_self e k v
      · rw [applyData_cons]
        exact ih _ k v hnd.2 hmem

theorem collectFrom_cons (acc : List (String × String) × List Report)
    (it : String × String) (rest : List (String × String)) :
    collectFrom acc (it :: rest) = collectFrom (collectStep acc it) rest := rfl

theorem collectFrom_data_keys (items : List (String × String)) :
    ∀ acc : List (String × String) × List Report,
    (∀ p ∈ acc.1, p.1 ∈ ENTITY_DATA_MAPPING.map Prod.snd) →
    ∀ p ∈ (collectFrom acc items).1, p.1 ∈ ENTITY_DATA_MAPPING.map Prod.snd := by
  induction items with
  | nil => intro acc h; exact h
  | cons it rest ih =>
      intro acc h
      rw [collectFrom_cons]
      apply ih
      intro p hp
      unfold collectStep at hp
      cases hfind : dictFind ENTITY_DATA_MAPPING it.1 with
      | none => rw [hfind] at hp; exact h p hp
      | some f =>
          rw [hfind] at hp
          rcases mem_dictInsert_pair acc.1 f (pyStrip it.2) p hp with h1 | h2
          · rw [h1]
            exact dictFind_mem_values ENTITY_DATA_MAPPING it.1 f hfind
          · exact h p h2

theorem collectFrom_data_nodup (items : List (String × String)) :
    ∀ acc : List (String × String) × List Report,
    (acc.1.map Prod.fst).Nodup → ((collectFrom acc items).1.map Prod.fst).Nodup := by
  induction items with
  | nil => intro acc h; exact h
  | cons it rest ih =>
      intro acc h
      rw [collectFrom_cons]
      apply ih
      unfold collectStep
      cases hfind : dictFind ENTITY_DATA_MAPPING it.1 with
      | none => exact h
      | some f => exact keys_nodup_dictInsert acc.1 f (pyStrip it.2) h

theorem collectData_keys (items : List (String × String)) :
    ∀ p ∈ (collectData items).1, p.1 ∈ ENTITY_DATA_MAPPING.map Prod.snd :=
  collectFrom_data_keys items ([], []) (by simp)

theorem collectData_nodup (items : List (String × String)) :
    ((collectData items).1.map Prod.fst).Nodup :=
  collectFrom_data_nodup items ([], []) (by simp)

end UtDisclosures

namespace UtDisclosures

theorem collectStep_none (acc : List (String × String) × List Report)
    (it : String × String) (h : dictFind ENTITY_DATA_MAPPING it.1 = none) :
    collectStep acc it = (acc.1, acc.2 ++ [Report.unmappedLabel]) := by
  unfold collectStep; rw [h]

theorem collectStep_some (acc : List (String × String) × List Report)
    (it : String × String) (f : String) (h : dictFind ENTITY_DATA_MAPPING it.1 = some f) :
    collectStep acc it = (dictInsert acc.1 f (pyStrip it.2), acc.2) := by
  unfold collectStep; rw [h]

theorem collectFrom_split (items : List (String × String)) :
    ∀ (d : List (String × String)) (r : List Report),
    collectFrom (d, r) items
      = ((collectFrom (d, []) items).1, r ++ (collectFrom (d, []) items).2) := by
  induction items with
  | nil => intro d r; simp [collectFrom]
  | cons it rest ih =>
      intro d r
      cases hfind : dictFind ENTITY_DATA_MAPPING it.1 with
      | none =>
          rw [collectFrom_cons, collectFrom_cons, collectStep_none (d, r) it hfind,
            collectStep_none (d, []) it hfind,
            ih d (r ++ [Report.unmappedLabel]), ih d ([] ++ [Report.unmappedLabel])]
          try simp
      | some f =>
          rw [collectFrom_cons, collectFrom_cons, collectStep_some (d, r) it f hfind,
            collectStep_some (d, []) it f hfind,
            ih (dictInsert d f (pyStrip it.2)) r]
          try simp

theorem processSection_entityLevel (e : Entity) (s : Fieldset)
    (h : classify (pyStrip s.legend) = Legend.entityLevel) :
    processSection e s = (applyData e (collectData s.items).1, (collectData s.items).2) := by
  simp only [processSection]
  rw [h]

theorem processSection_personLevel_some (e : Entity) (s : Fieldset) (p : Person)
    (h : classify (pyStrip s.legend) = Legend.personLevel)
    (hp : mkPerson (collectData s.items).1 = some p) :
    processSection e s
      = ({ e with associated_people := e.associated_people ++ [p] },
         (collectData s.items).2) := by
  simp only [processSection]
  rw [h, hp]

theorem processSection_personLevel_none (e : Entity) (s : Fieldset)
    (h : classify (pyStrip s.legend) = Legend.personLevel)
    (hp : mkPerson (collectData s.items).1 = none) :
    processSection e s = (e, (collectData s.items).2 ++ [Report.personError]) := by
  simp only [processSection]
  rw [h, hp]

theorem processSection_unknown (e : Entity) (s : Fieldset)
    (h : classify (pyStrip s.legend) = Legend.unknown) :
    processSection e s
      = (e, (collectData s.items).2 ++ [Report.unknownLegend (pyStrip s.legend)]) := by
  simp only [processSection]
  rw [h]

theorem processSection_people (e : Entity) (s : Fieldset) :
    (processSection e s).1.associated_people = e.associated_people ++ sectionPersons s := by
  unfold sectionPersons
  cases hc : classify (pyStrip s.legend) with
  | entityLevel =>
      rw [processSection_entityLevel e s hc]
      simp [applyData_associated_people]
  | personLevel =>
      cases hp : mkPerson (collectData s.items).1 with
      | none => rw [processSection_personLevel_none e s hc hp]; simp
      | some p => rw [processSection_personLevel_some e s p hc hp]; simp
  | unknown => rw [processSection_unknown e s hc]; simp

theorem processSection_ids (e : Entity) (s : Fieldset) :
    (processSection e s).1.folder_id = e.folder_id ∧
    (processSection e s).1.entity_id = e.entity_id ∧
    (processSection e s).1.source = e.source ∧
    (processSection e s).1.type = e.type := by
  cases hc : classify (pyStrip s.legend) with
  | entityLevel =>
      rw [processSection_entityLevel e s hc]
      apply applyData_preserves_ids
      intro p hp
      have hv := collectData_keys s.items p hp
      have hall : ∀ f ∈ ENTITY_DATA_MAPPING.map Prod.snd,
          f ≠ "folder_id" ∧ f ≠ "entity_id" ∧ f ≠ "source" ∧ f ≠ "type" := by decide
      exact hall p.1 hv
  | personLevel =>
      cases hp : mkPerson (collectData s.items).1 with
      | none =>
          rw [processSection_personLevel_none e s hc hp]; exact ⟨rfl, rfl, rfl, rfl⟩
      | some p =>
          rw [processSection_personLevel_some e s p hc hp]; exact ⟨rfl, rfl, rfl, rfl⟩
  | unknown => rw [processSection_unknown e s hc]; exact ⟨rfl, rfl, rfl, rfl⟩

theorem stepFold_eq (acc : Entity × List Report) (s : Fieldset) :
    stepFold acc s = ((processSection acc.1 s).1, acc.2 ++ (processSection acc.1 s).2) := rfl

theorem foldSections_people (sections : List Fieldset) :
    ∀ (e : Entity) (r : List Report),
    ((sections.foldl stepFold (e, r)).1).associated_people
      = e.associated_people ++ (sections.map sectionPersons).flatten := by
  induction sections with
  | nil => intro e r; simp
  | cons s rest ih =>
      intro e r
      rw [List.foldl_cons, stepFold_eq, ih, List.map_cons]
      rw [processSection_people]
      simp [List.append_assoc]

theorem foldSections_ids (sections : List Fieldset) :
    ∀ (e : Entity) (r : List Report),
    ((sections.foldl stepFold (e, r)).1).folder_id = e.folder_id ∧
    ((sections.foldl stepFold (e, r)).1).entity_id = e.entity_id ∧
    ((sections.foldl stepFold (e, r)).1).source = e.source ∧
    ((sections.foldl stepFold (e, r)).1).type = e.type := by
  induction sections with
  | nil => intro e r; exact ⟨rfl, rfl, rfl, rfl⟩
  | cons s rest ih =>
      intro e r
      rw [List.foldl_cons, stepFold_eq]
      have h1 := processSection_ids e s
      have h2 := ih (processSection e s).1 (r ++ (processSection e s).2)
      exact ⟨h2.1.trans h1.1, h2.2.1.trans h1.2.1,
        h2.2.2.1.trans h1.2.2.1, h2.2.2.2.trans h1.2.2.2⟩

theorem extract_none (i u : String) (doc : Document)
    (hty : dictFind type_mapping doc.h1 = none) : extract i u doc = (none, []) := by
  simp only [extract]
  rw [hty]

theorem extract_some (i u : String) (doc : Document) (ty : String)
    (hty : dictFind type_mapping doc.h1 = some ty) :
    extract i u doc
      = (some (doc.sections.foldl stepFold ({ initialEntity i u with type := ty }, [])).1,
         (doc.sections.foldl stepFold ({ initialEntity i u with type := ty }, [])).2) := by
  simp only [extract]
  rw [hty]

theorem extract_fields (i u : String) (doc : Document) (e : Entity) (r : List Report)
    (hx : extract i u doc = (some e, r)) :
    e.folder_id = i ∧ e.entity_id = lastUrlPart u ∧ e.source = u ∧
    dictFind type_mapping doc.h1 = some e.type ∧
    e.associated_people = (doc.sections.map sectionPersons).flatten := by
  cases hty : dictFind type_mapping doc.h1 with
  | none =>
      rw [extract_none i u doc hty] at hx
      rw [Prod.ext_iff] at hx
      exact absurd hx.1 (by simp)
  | some ty =>
      rw [extract_some i u doc ty hty] at hx
      rw [Prod.ext_iff] at hx
      obtain ⟨hx1, hx2⟩ := hx
      rw [Option.some.injEq] at hx1
      subst hx1
      have hids := foldSections_ids doc.sections { initialEntity i u with type := ty } []
      have hppl := foldSections_people doc.sections { initialEntity i u with type := ty } []
      have ht2 : (doc.sections.foldl stepFold
          ({ initialEntity i u with type := ty }, ([] : List Report))).1.type = ty :=
        hids.2.2.2
      refine ⟨hids.1, hids.2.1, hids.2.2.1, ?_, ?_⟩
      · rw [ht2]
        try exact hty
      · rw [hppl]
        simp [initialEntity]

end UtDisclosures

namespace UtDisclosures

theorem collectFrom_append (acc : List (String × String) × List Report)
    (a b : List (String × String)) :
    collectFrom acc (a ++ b) = collectFrom (collectFrom acc a) b := by
  unfold collectFrom; rw [List.foldl_append]

theorem collectFrom_split' (items : List (String × String))
    (acc : List (String × String) × List Report) :
    collectFrom acc items
      = ((collectFrom (acc.1, []) items).1, acc.2 ++ (collectFrom (acc.1, []) items).2) :=
  collectFrom_split items acc.1 acc.2

theorem flatten_sectionPersons_length (sections : List Fieldset)
    (hwf : ∀ s ∈ sections, classify (pyStrip s.legend) = Legend.personLevel →
      (mkPerson (collectData s.items).1).isSome = true) :
    ((sections.map sectionPersons).flatten).length
      = sections.countP (fun s => decide (classify (pyStrip s.legend) = Legend.personLevel)) := by
  induction sections with
  | nil => rfl
  | cons s rest ih =>
      rw [List.map_cons, List.flatten_cons, List.length_append,
        ih (fun q hq hq2 => hwf q (List.mem_cons_of_mem _ hq) hq2), List.countP_cons]
      have hlen : (sectionPersons s).length
          = if classify (pyStrip s.legend) = Legend.personLevel then 1 else 0 := by
        unfold sectionPersons
        cases hc : classify (pyStrip s.legend) with
        | personLevel =>
            have hs := hwf s (List.mem_cons_self _ _) hc
            cases hm : mkPerson (collectData s.items).1 with
            | none => rw [hm] at hs; simp at hs
            | some p => simp [hm]
        | entityLevel => simp
        | unknown => simp
      rw [hlen]
      by_cases hc : classify (pyStrip s.legend) = Legend.personLevel
      · simp [hc, Nat.add_comm]
      · have hd : decide (classify (pyStrip s.legend) = Legend.personLevel) = false := by
          simpa using hc
        rw [if_neg hc, hd]
        simp

/-- C1 (counterexample): a page with one person-level section whose data
lacks a "First" label produces no Person at all - `Person(**data)` fails
because `first` is a required constructor argument - contradicting the
claim that a Person with all-empty defaults is appended for every
person-level section. -/
theorem c1_person_first_required_cex :
    (extract "123" "https://example.com/x/999" docMissingFirst).1.map Entity.associated_people
      = some [] ∧
    (extract "123" "https://example.com/x/999" docMissingFirst).2 = [Report.personError] := by
  exact ⟨by decide, by decide⟩

/-- C1 (amended): for a person-level section whose accumulated mapping
contains the key `first` and only declared `Person` fields, a Person is
built from the full mapping with every absent field defaulting to the
empty string, and appended to the person sequence of the entity. -/
theorem c1_person_built_with_defaults (e : Entity) (s : Fieldset)
    (hc : classify (pyStrip s.legend) = Legend.personLevel)
    (hall : ((collectData s.items).1.all fun p => PERSON_FIELDS.contains p.1) = true)
    (hfirst : ((collectData s.items).1.any fun p => p.1 == "first") = true) :
    processSection e s
      = ({ e with associated_people :=
            e.associated_people ++ [personFromData (collectData s.items).1] },
         (collectData s.items).2) := by
  have hp : mkPerson (collectData s.items).1
      = some (personFromData (collectData s.items).1) := by
    unfold mkPerson
    rw [hall, hfirst]
    simp
  exact processSection_personLevel_some e s _ hc hp

/-- Witness for C1: the treasurer section with First and Last yields the
Person built from its mapping, appended to the base entity. -/
theorem c1_person_built_with_defaults_witness :
    processSection entBase secTreasurer
      = ({ entBase with associated_people :=
            entBase.associated_people ++ [personFromData (collectData secTreasurer.items).1] },
         (collectData secTreasurer.items).2) :=
  c1_person_built_with_defaults entBase secTreasurer (by decide) (by decide) (by decide)

/-- C2: a page with one well-formed entity-level section and one section
of unknown legend - in either document order - yields the same Entity as
the page without the bad section, an Entity populated from the good
section only, plus a reported unknown-legend failure; the page does not
fail, and with the bad section first the good section is still processed
afterwards. -/
theorem c2_section_isolation (i u h1s ty : String) (sG sB : Fieldset)
    (hty : dictFind type_mapping h1s = some ty)
    (hG : classify (pyStrip sG.legend) = Legend.entityLevel)
    (hB : classify (pyStrip sB.legend) = Legend.unknown) :
    ((extract i u ⟨h1s, [sG, sB]⟩).1 = (extract i u ⟨h1s, [sG]⟩).1 ∧
     (extract i u ⟨h1s, [sB, sG]⟩).1 = (extract i u ⟨h1s, [sG]⟩).1) ∧
    ((extract i u ⟨h1s, [sG, sB]⟩).1
       = some (applyData { initialEntity i u with type := ty } (collectData sG.items).1) ∧
     (extract i u ⟨h1s, [sB, sG]⟩).1
       = some (applyData { initialEntity i u with type := ty } (collectData sG.items).1)) ∧
    (Report.unknownLegend (pyStrip sB.legend) ∈ (extract i u ⟨h1s, [sG, sB]⟩).2 ∧
     Report.unknownLegend (pyStrip sB.legend) ∈ (extract i u ⟨h1s, [sB, sG]⟩).2) := by
  have hx2 := extract_some i u ⟨h1s, [sG, sB]⟩ ty hty
  have hx3 := extract_some i u ⟨h1s, [sB, sG]⟩ ty hty
  have hx1 := extract_some i u ⟨h1s, [sG]⟩ ty hty
  have hfold1 : (([sG] : List Fieldset).foldl stepFold
      ({ initialEntity i u with type := ty }, ([] : List Report)))
      = ((processSection { initialEntity i u with type := ty } sG).1,
         (processSection { initialEntity i u with type := ty } sG).2) := by
    simp [stepFold_eq]
  have hfold2 : (([sG, sB] : List Fieldset).foldl stepFold
      ({ initialEntity i u with type := ty }, ([] : List Report)))
      = ((processSection (processSection { initialEntity i u with type := ty } sG).1 sB).1,
         (processSection { initialEntity i u with type := ty } sG).2
           ++ (processSection (processSection { initialEntity i u with type := ty } sG).1 sB).2) := by
    simp [stepFold_eq]
  have hfold3 : (([sB, sG] : List Fieldset).foldl stepFold
      ({ initialEntity i u with type := ty }, ([] : List Report)))
      = ((processSection (processSection { initialEntity i u with type := ty } sB).1 sG).1,
         (processSection { initialEntity i u with type := ty } sB).2
           ++ (processSection (processSection { initialEntity i u with type := ty } sB).1 sG).2) := by
    simp [stepFold_eq]
  have hPB := processSection_unknown
    (processSection { initialEntity i u with type := ty } sG).1 sB hB
  have hPB0 := processSection_unknown { initialEntity i u with type := ty } sB hB
  have hPG := processSection_entityLevel { initialEntity i u with type := ty } sG hG
  refine ⟨⟨?_, ?_⟩, ⟨?_, ?_⟩, ?_, ?_⟩
  · rw [hx2, hx1, hfold2, hfold1, hPB]
  · rw [hx3, hx1, hfold3, hfold1, hPB0]
  · rw [hx2, hfold2, hPB, hPG]
  · rw [hx3, hfold3, hPB0, hPG]
  · rw [hx2, hfold2, hPB]
    simp
  · rw [hx3, hfold3, hPB0]
    simp

/-- Witness for C2: the PAC page with a good "PAC Information" section and
a "Misc Notes" section, in both orders. -/
theorem c2_section_isolation_witness :
    ((extract "1" "https://x/9"
        ⟨"Political Action Committee Statement of Organization", [secGood, secBad]⟩).1
      = (extract "1" "https://x/9"
        ⟨"Political Action Committee Statement of Organization", [secGood]⟩).1 ∧
     (extract "1" "https://x/9"
        ⟨"Political Action Committee Statement of Organization", [secBad, secGood]⟩).1
      = (extract "1" "https://x/9"
        ⟨"Political Action Committee Statement of Organization", [secGood]⟩).1) ∧
    ((extract "1" "https://x/9"
        ⟨"Political Action Committee Statement of Organization", [secGood, secBad]⟩).1
      = some (applyData
          { initialEntity "1" "https://x/9" with type := "Political Action Committee" }
          (collectData secGood.items).1) ∧
     (extract "1" "https://x/9"
        ⟨"Political Action Committee Statement of Organization", [secBad, secGood]⟩).1
      = some (applyData
          { initialEntity "1" "https://x/9" with type := "Political Action Committee" }
          (collectData secGood.items).1)) ∧
    (Report.unknownLegend (pyStrip secBad.legend)
      ∈ (extract "1" "https://x/9"
        ⟨"Political Action Committee Statement of Organization", [secGood, secBad]⟩).2 ∧
     Report.unknownLegend (pyStrip secBad.legend)
      ∈ (extract "1" "https://x/9"
        ⟨"Political Action Committee Statement of Organization", [secBad, secGood]⟩).2) :=
  c2_section_isolation "1" "https://x/9"
    "Political Action Committee Statement of Organization" "Political Action Committee"
    secGood secBad (by decide) (by decide) (by decide)

/-- C3: a page heading outside the closed type table makes the whole page
fail before any section is processed (the result is the same for every
section list, and no Entity is produced); for a successful page the
type of the Entity always comes from the heading via the type table, no
section assignment can change it. -/
theorem c3_unresolved_type_fatal :
    (∀ (i u h1s : String) (secs secs' : List Fieldset),
      dictFind type_mapping h1s = none →
      extract i u ⟨h1s, secs⟩ = (none, []) ∧
      extract i u ⟨h1s, secs⟩ = extract i u ⟨h1s, secs'⟩) ∧
    (∀ (i u : String) (doc : Document) (e : Entity) (r : List Report),
      extract i u doc = (some e, r) → dictFind type_mapping doc.h1 = some e.type) := by
  constructor
  · intro i u h1s secs secs' h
    have h1 := extract_none i u ⟨h1s, secs⟩ h
    have h2 := extract_none i u ⟨h1s, secs'⟩ h
    exact ⟨h1, h1.trans h2.symm⟩
  · intro i u doc e r hx
    exact (extract_fields i u doc e r hx).2.2.2.1

/-- Witness for C3: an unknown heading yields no Entity and no reports,
even with a well-formed section present. -/
theorem c3_unresolved_type_fatal_witness :
    extract "7" "https://example.com/a/b"
      ⟨"Some Unknown Heading", [secGood]⟩ = (none, []) :=
  (c3_unresolved_type_fatal.1 "7" "https://example.com/a/b" "Some Unknown Heading"
    [secGood] [] (by decide)).1

/-- C4: membership in the closed entity-level legend set classifies a
title as entity-level; otherwise one of the two personal prefixes
classifies it as person-level; any other title is unknown.  The
membership test runs first and the first match wins. -/
theorem c4_classify_cases (t : String) :
    (t ∈ ENTITY_LEVEL_LEGENDS → classify t = Legend.entityLevel) ∧
    (t ∉ ENTITY_LEVEL_LEGENDS →
      (pyStartswith t "Information about" = true ∨
       pyStartswith t "Personal Campaign Committee" = true) →
      classify t = Legend.personLevel) ∧
    (t ∉ ENTITY_LEVEL_LEGENDS →
      pyStartswith t "Information about" = false →
      pyStartswith t "Personal Campaign Committee" = false →
      classify t = Legend.unknown) := by
  refine ⟨fun h => ?_, fun h hp => ?_, fun h h1 h2 => ?_⟩
  · unfold classify
    rw [if_pos (by simpa using h)]
  · unfold classify
    rw [if_neg (by simpa using h),
      if_pos (by rcases hp with hp | hp <;> simp [hp])]
  · unfold classify
    rw [if_neg (by simpa using h), if_neg (by simp [h1, h2])]

/-- Witness for C4: one concrete title of each class. -/
theorem c4_classify_cases_witness :
    classify "PAC Information" = Legend.entityLevel ∧
    classify "Information about Treasurer" = Legend.personLevel ∧
    classify "Misc Notes" = Legend.unknown :=
  ⟨(c4_classify_cases "PAC Information").1 (by decide),
   (c4_classify_cases "Information about Treasurer").2.1 (by decide) (Or.inl (by decide)),
   (c4_classify_cases "Misc Notes").2.2 (by decide) (by decide) (by decide)⟩

/-- C5: an unmapped label anywhere in a section leaves the collected
data of the section unchanged (its value is dropped, never stored under the
raw label), adds exactly one unmapped-label report, and collection of the
rest of the section continues; every key that is stored is a canonical
field from the mapping table. -/
theorem c5_unmapped_label_dropped (pre post : List (String × String)) (l t : String)
    (h : dictFind ENTITY_DATA_MAPPING l = none) :
    (collectData (pre ++ (l, t) :: post)).1 = (collectData (pre ++ post)).1 ∧
    (collectData (pre ++ (l, t) :: post)).2.length
      = (collectData (pre ++ post)).2.length + 1 ∧
    (∀ p ∈ (collectData (pre ++ (l, t) :: post)).1,
      p.1 ∈ ENTITY_DATA_MAPPING.map Prod.snd) := by
  have hL : collectData (pre ++ (l, t) :: post)
      = ((collectFrom ((collectData pre).1, []) post).1,
         ((collectData pre).2 ++ [Report.unmappedLabel])
           ++ (collectFrom ((collectData pre).1, []) post).2) := by
    unfold collectData
    rw [collectFrom_append ([], []) pre ((l, t) :: post), collectFrom_cons,
      collectStep_none (collectFrom ([], []) pre) (l, t) h]
    exact collectFrom_split post (collectFrom ([], []) pre).1
      ((collectFrom ([], []) pre).2 ++ [Report.unmappedLabel])
  have hR : collectData (pre ++ post)
      = ((collectFrom ((collectData pre).1, []) post).1,
         (collectData pre).2 ++ (collectFrom ((collectData pre).1, []) post).2) := by
    unfold collectData
    rw [collectFrom_append ([], []) pre post]
    exact collectFrom_split' post (collectFrom ([], []) pre)
  refine ⟨?_, ?_, ?_⟩
  · rw [hL, hR]
  · rw [hL, hR]
    simp
    omega
  · intro p hp
    exact collectData_keys (pre ++ (l, t) :: post) p hp

/-- Witness for C5: a bogus label between two mapped ones is dropped, and
the stored key "name" is a mapping-table value. -/
theorem c5_unmapped_label_dropped_witness :
    (collectData [("Name", "Acme"), ("Bogus Label", "junk"), ("City", "SLC")]).1
      = (collectData [("Name", "Acme"), ("City", "SLC")]).1 ∧
    "name" ∈ ENTITY_DATA_MAPPING.map Prod.snd :=
  ⟨(c5_unmapped_label_dropped [("Name", "Acme")] [("City", "SLC")]
      "Bogus Label" "junk" (by decide)).1,
   (c5_unmapped_label_dropped [("Name", "Acme")] [("City", "SLC")]
      "Bogus Label" "junk" (by decide)).2.2 ("name", "Acme") (by decide)⟩

/-- C6: for an entity-level section, every (field, value) pair of the
accumulated mapping is applied to the entity - whatever value the field
held before is overwritten (the prior entity is arbitrary, covering
overwrites across sections) - and within a section the dict itself keeps
only the last value written for a repeated field. -/
theorem c6_last_write_wins (e : Entity) (s : Fieldset) (k v : String)
    (hc : classify (pyStrip s.legend) = Legend.entityLevel)
    (hm : (k, v) ∈ (collectData s.items).1) :
    ((processSection e s).1).getattr k = some v ∧
    (∀ (items : List (String × String)) (l t f : String),
      dictFind ENTITY_DATA_MAPPING l = some f →
      dictFind (collectData (items ++ [(l, t)])).1 f = some (pyStrip t)) := by
  constructor
  · rw [processSection_entityLevel e s hc]
    exact applyData_getattr_mem (collectData s.items).1 e k v (collectData_nodup s.items) hm
  · intro items l t f hf
    unfold collectData
    rw [collectFrom_append ([], []) items [(l, t)], collectFrom_cons,
      collectStep_some (collectFrom ([], []) items) (l, t) f hf]
    exact dictFind_dictInsert_self _ f (pyStrip t)

/-- Witness for C6: a corporate section mapping "Name" and then "Name of
Corporation" to the field `name` ends with the later value, overwriting
the value the entity already had. -/
theorem c6_last_write_wins_witness :
    ((processSection entNamed secCorpTwice).1).getattr "name" = some "B" :=
  (c6_last_write_wins entNamed secCorpTwice "name" "B" (by decide) (by decide)).1

/-- C7 (counterexample): a page with one person-level section whose data
lacks "First" yields an Entity with zero Persons, not one - the claim
that n person-level sections always yield n Persons fails. -/
theorem c7_person_multiplicity_cex :
    (extract "9" "https://example.com/e/1" docPersonNoFirst).1.map
        (fun e => e.associated_people.length) = some 0 ∧
    docPersonNoFirst.sections.countP
        (fun s => decide (classify (pyStrip s.legend) = Legend.personLevel)) = 1 := by
  exact ⟨by decide, by decide⟩

/-- C7 (amended): when every person-level section of the page builds its
Person successfully, the extracted Entity holds exactly one Person per
person-level section, in document order (its person list is the
concatenation of the per-section contributions). -/
theorem c7_person_multiplicity_amended (i u : String) (doc : Document) (e : Entity)
    (r : List Report) (hx : extract i u doc = (some e, r))
    (hwf : ∀ s ∈ doc.sections, classify (pyStrip s.legend) = Legend.personLevel →
      (mkPerson (collectData s.items).1).isSome = true) :
    e.associated_people = (doc.sections.map sectionPersons).flatten ∧
    e.associated_people.length
      = doc.sections.countP
          (fun s => decide (classify (pyStrip s.legend) = Legend.personLevel)) := by
  have hppl := (extract_fields i u doc e r hx).2.2.2.2
  refine ⟨hppl, ?_⟩
  rw [hppl, flatten_sectionPersons_length doc.sections hwf]

/-- Witness for C7: the page with three person sections yields exactly
three Persons. -/
theorem c7_person_multiplicity_amended_witness :
    entThreePersons.associated_people.length
      = docThreePersons.sections.countP
          (fun s => decide (classify (pyStrip s.legend) = Legend.personLevel)) ∧
    entThreePersons.associated_people.length = 3 :=
  ⟨(c7_person_multiplicity_amended "1" "https://x/2" docThreePersons entThreePersons []
      (by decide) (by decide)).2, by decide⟩

/-- C8 (counterexample): `principal_name` is a canonical field of the
mapping table, yet it is not among the declared attributes of the
Entity dataclass - assigning it creates a dynamic attribute instead of setting
a declared one - contradicting the claim that all six type-specific
fields are declared. -/
theorem c8_declared_attrs_cex :
    dictFind ENTITY_DATA_MAPPING "Principal\x27s Name" = some "principal_name" ∧
    "principal_name" ∉ entityDeclaredFields ∧
    Entity.setattr { folder_id := "1", entity_id := "2", source := "u" }
        "principal_name" "P"
      = { folder_id := "1", entity_id := "2", source := "u",
          extra := [("principal_name", "P")] } := by
  exact ⟨by decide, by decide, by decide⟩

/-- C8 (amended): the Entity dataclass declares ballot proposition,
ballot position and affiliated organization, but not principal name,
principal interests or reimbursement types, although all six are
canonical fields of the mapping table. -/
theorem c8_declared_attrs_amended :
    "ballot_proposition" ∈ entityDeclaredFields ∧
    "ballot_position" ∈ entityDeclaredFields ∧
    "affiliated_organization" ∈ entityDeclaredFields ∧
    "ballot_proposition" ∈ ENTITY_DATA_MAPPING.map Prod.snd ∧
    "ballot_position" ∈ ENTITY_DATA_MAPPING.map Prod.snd ∧
    "affiliated_organization" ∈ ENTITY_DATA_MAPPING.map Prod.snd ∧
    "principal_name" ∈ ENTITY_DATA_MAPPING.map Prod.snd ∧
    "principal_name" ∉ entityDeclaredFields ∧
    "principal_interests" ∈ ENTITY_DATA_MAPPING.map Prod.snd ∧
    "principal_interests" ∉ entityDeclaredFields ∧
    "reimbursement_types" ∈ ENTITY_DATA_MAPPING.map Prod.snd ∧
    "reimbursement_types" ∉ entityDeclaredFields := by
  decide

/-- C9: extraction is a pure function of the document, the entity id and
the source url - running it twice on the same inputs yields value-equal
results; the model is stateless because the code builds a fresh Entity
and person list per call (`default_factory=list`). -/
theorem c9_extract_deterministic (input url : String) (doc : Document) :
    extract input url doc = extract input url doc := rfl

/-- C10: for every successful extraction the entity id is the last
slash-separated component of the source url and the folder id is the
navigation input unchanged; no section handling can reassign them. -/
theorem c10_ids_from_context (i u : String) (doc : Document) (e : Entity) (r : List Report)
    (hx : extract i u doc = (some e, r)) :
    e.entity_id = lastUrlPart u ∧ e.folder_id = i := by
  have h := extract_fields i u doc e r hx
  exact ⟨h.2.1, h.1⟩

/-- Witness for C10: the corporation page extracted with folder id "55"
from url "https://x/77". -/
theorem c10_ids_from_context_witness :
    entCorp.entity_id = lastUrlPart "https://x/77" ∧ entCorp.folder_id = "55" :=
  c10_ids_from_context "55" "https://x/77" docCorp entCorp [] (by decide)

end UtDisclosures
